import Mathlib

set_option maxRecDepth 100000

/-!
Verification of the emergency notification subsystem of the
NovelGeneticPredictor repository, shallowly embedded in Lean 4.

The embedding follows `src/emergency/config_manager.py` and
`src/emergency/alert_service.py`:

* Python dicts holding the patient context are modelled as a structure of
  optional fields (a missing dict key is `none`).
* Wall-clock values (`datetime.now().strftime(...)`) are passed in as
  pre-rendered strings collected in a `Clock` record.
* The Fernet cipher of the `cryptography` third-party library is modelled
  abstractly: encryption is a function `String → String`, decryption a
  function `String → Option String` (`none` models the decryption
  exception); theorems that need the Fernet contract take the inversion
  law `decrypt (encrypt s) = some s` (same key, hence also a fresh process
  reusing the persisted key artifact) as a hypothesis.
* Python exceptions that the code catches are modelled by `Option`
  results; the Twilio send calls are oracles `Bool × String`
  (ok flag, confirmation sid or error detail), exactly the shape the
  private helpers `_send_sms` / `_make_voice_call` return.
* `re.sub(r'\D', '', s)` is modelled as filtering ASCII digits.
-/

/-- `UrgencyLevel` enum of `alert_service.py`. -/
inductive UrgencyLevel
  | low
  | medium
  | high
  | critical
deriving DecidableEq

/-- `DeliveryStatus` enum of `alert_service.py`. -/
inductive DeliveryStatus
  | pending
  | sent
  | delivered
  | failed
  | undelivered
deriving DecidableEq

/-- The patient-context dict: every field the emergency code reads,
`none` when the key is missing.  `age` is the string rendering the
f-strings would produce for the stored value. -/
structure PatientData where
  age : Option String
  gender : Option Int
  case_id : Option String
  seizures : Option Int
  cardiac_abnormalities : Option Int
  respiratory_issues : Option Int
  developmental_delay : Option Int
  intellectual_disability : Option Int
  failure_to_thrive : Option Int
deriving DecidableEq

/-- Pre-rendered `datetime.now()` strings used by the alert service:
`hm` is `strftime("%H:%M")`, `hms` is `strftime("%H%M%S")`,
`ymdhms` is `strftime("%Y%m%d_%H%M%S")`. -/
structure Clock where
  hm : String
  hms : String
  ymdhms : String
deriving DecidableEq

/-- The `EmergencyAlert` dataclass of `alert_service.py` (the `datetime`
timestamp and the context snapshot carry no logic used by the claims;
the snapshot is kept, the timestamp is carried inside `alert_id`). -/
structure EmergencyAlert where
  alert_id : String
  patient_case_id : String
  urgency_level : UrgencyLevel
  message_content : String
  recipient_phone : String
  delivery_status : DeliveryStatus
  message_sid : Option String
  call_sid : Option String
  user_notes : String
  patient_context : PatientData
deriving DecidableEq

/-- The `TwilioConfig` dataclass of `config_manager.py`
(the optional `last_tested` datetime field is not modelled). -/
structure TwilioConfig where
  account_sid : String
  auth_token : String
  from_phone_number : String
  is_configured : Bool
deriving DecidableEq

/-- One entry of the persisted `twilio` block of
`emergency_config.json` (its `auth_token` field is ciphertext). -/
structure StoredTwilio where
  account_sid : String
  auth_token : String
  from_phone_number : String
  is_configured : Bool
deriving DecidableEq

/-- One entry of the persisted `emergency_contacts` list. -/
structure StoredContact where
  contact_id : String
  name : String
  phone_number : String
  priority : Int
  is_active : Bool
deriving DecidableEq

/-- The persisted `emergency_config.json` contents: the `twilio` key
(absent when never configured) and the contact list. -/
structure ConfigFile where
  twilio : Option StoredTwilio
  emergency_contacts : List StoredContact
deriving DecidableEq

/-- `re.sub(r'\D', '', s)`: keep only the digit characters. -/
def digitsOnly (s : String) : String :=
  String.mk (s.toList.filter Char.isDigit)

/-- `digits_only.startswith('1')`: the first character is `1`. -/
def startsWithOne (s : String) : Bool :=
  s.toList.head? == some '1'

/-- `ConfigurationManager.validate_phone_number`: 10 digits, or 11 digits
starting with `1`. -/
def validate_phone_number (phone_number : String) : Bool :=
  let d := digitsOnly phone_number
  if d.length = 10 then true
  else if d.length == 11 && startsWithOne d then true
  else false

/-- `ConfigurationManager.format_phone_number`: prepend `+1` to a bare
10-digit number, `+` to an 11-digit number starting with `1`, otherwise
return the input unchanged. -/
def format_phone_number (phone_number : String) : String :=
  let d := digitsOnly phone_number
  if d.length = 10 then "+1" ++ d
  else if d.length == 11 && startsWithOne d then "+" ++ d
  else phone_number

/-- `ConfigurationManager.save_twilio_config`: encrypt the auth token and
overwrite the whole `twilio` block of the persisted configuration.
Returns the `(bool, new persisted file)` pair. -/
def save_twilio_config (encrypt : String → String) (config : ConfigFile)
    (account_sid auth_token from_number : String) : Bool × ConfigFile :=
  let encrypted_token := encrypt auth_token
  (true,
   { config with
      twilio := some
        { account_sid := account_sid
          auth_token := encrypted_token
          from_phone_number := from_number
          is_configured := true } })

/-- `ConfigurationManager.get_twilio_config`: return `none` when the
`twilio` block is absent or not flagged configured; otherwise decrypt
the auth token.  The Python code wraps the body in `try/except` and
returns `None` when decryption raises, which is the `none` branch of
`decrypt`. -/
def get_twilio_config (decrypt : String → Option String)
    (config : ConfigFile) : Option TwilioConfig :=
  match config.twilio with
  | none => none
  | some t =>
    if t.is_configured then
      match decrypt t.auth_token with
      | none => none
      | some auth_token =>
        some
          { account_sid := t.account_sid
            auth_token := auth_token
            from_phone_number := t.from_phone_number
            is_configured := true }
    else none

/-- `ConfigurationManager.add_emergency_contact`: reject when the phone
fails validation, otherwise append a contact record storing the phone
string exactly as supplied, with identifier `contact_<n+1>`. -/
def add_emergency_contact (config : ConfigFile)
    (name phone_number : String) (priority : Int) : Bool × ConfigFile :=
  if validate_phone_number phone_number then
    let contacts := config.emergency_contacts
    let contact : StoredContact :=
      { contact_id := "contact_" ++ toString (contacts.length + 1)
        name := name
        phone_number := phone_number
        priority := priority
        is_active := true }
    (true, { config with emergency_contacts := contacts ++ [contact] })
  else (false, config)

/-- The urgency-label dict lookup of `_format_emergency_message`
(the dict covers every enum value, so its `"🚨 EMERGENCY"` default is
unreachable). -/
def urgencyLabel : UrgencyLevel → String
  | UrgencyLevel.critical => "🚨 CRITICAL EMERGENCY"
  | UrgencyLevel.high => "⚠️ HIGH PRIORITY"
  | UrgencyLevel.medium => "📋 MEDIUM PRIORITY"
  | UrgencyLevel.low => "ℹ️ LOW PRIORITY"

/-- The fixed `symptom_checks` ranked checklist paired with each flag of
the patient context. -/
def symptomChecks (pd : PatientData) : List (Option Int × String) :=
  [(pd.seizures, "Seizures"),
   (pd.cardiac_abnormalities, "Cardiac issues"),
   (pd.respiratory_issues, "Respiratory issues"),
   (pd.developmental_delay, "Dev delay"),
   (pd.intellectual_disability, "Intellectual disability"),
   (pd.failure_to_thrive, "Failure to thrive")]

/-- `key_symptoms`: the names whose flag equals 1, in checklist order. -/
def keySymptoms (pd : PatientData) : List String :=
  ((symptomChecks pd).filter (fun p => p.1 == some 1)).map (fun p => p.2)

/-- `'Male' if gender == 1 else 'Female' if gender == 0 else 'Unknown'`. -/
def genderText (g : Option Int) : String :=
  if g == some 1 then "Male" else if g == some 0 then "Female" else "Unknown"

/-- `str.strip()` modelled over the character list (kernel-reducible,
unlike `String.trim`). -/
def pyStrip (s : String) : String :=
  String.mk
    (((s.toList.dropWhile Char.isWhitespace).reverse.dropWhile
        Char.isWhitespace).reverse)

/-- `str[:n]` modelled over the character list. -/
def takeChars (n : Nat) (s : String) : String :=
  String.mk (s.toList.take n)

/-- `EmergencyAlertService._format_emergency_message`: build the SMS body
from urgency label, age/gender, case id, up to three symptoms, truncated
notes, timestamp and call to action, joined by `" | "`; when the result
exceeds 160 characters, rebuild from the essential parts only. -/
def _format_emergency_message (patient_data : PatientData)
    (urgency_level : UrgencyLevel) (user_notes : String)
    (clock : Clock) : String :=
  let age := patient_data.age.getD "Unknown"
  let gender := genderText patient_data.gender
  let case_id := patient_data.case_id.getD ("CASE_" ++ clock.hms)
  let urgency_tag := urgencyLabel urgency_level
  let base_parts : List String :=
    [urgency_tag ++ " - NGP Alert",
     "Patient: " ++ age ++ "yr " ++ gender,
     "Case: " ++ case_id]
  let key_symptoms := keySymptoms patient_data
  let with_symptoms :=
    if key_symptoms.isEmpty then base_parts
    else base_parts ++
      ["Symptoms: " ++ String.intercalate ", " (key_symptoms.take 3)]
  let stripped := pyStrip user_notes
  let with_notes :=
    if stripped.toList.isEmpty then with_symptoms
    else with_symptoms ++ ["Notes: " ++ takeChars 50 stripped]
  let message_parts := with_notes ++ ["Time: " ++ clock.hm, "Please respond ASAP"]
  let message := String.intercalate " | " message_parts
  if message.length > 160 then
    String.intercalate " | "
      [urgency_tag,
       "Patient: " ++ age ++ "yr " ++ gender,
       "Case: " ++ case_id,
       "Time: " ++ clock.hm,
       "Check NGP system"]
  else message

/-- Which delivery channel a code path invoked (the calls to `_send_sms`
and `_make_voice_call`). -/
inductive ChannelUse
  | sms
  | voice
deriving DecidableEq

/-- The `(success, status message, alert record)` triple
`send_emergency_alert` returns. -/
structure SendResult where
  success : Bool
  status : String
  alert : Option EmergencyAlert
deriving DecidableEq

/-- `EmergencyAlertService.send_emergency_alert`.  The ledger
(`self.alert_history`) is explicit state; the resolved credentials and
the outcomes of the two Twilio calls (`_send_sms`, `_make_voice_call`,
each an `(ok, sid-or-error)` pair) are oracle inputs.  Returns the
result triple, the new ledger, and the list of channels invoked. -/
def send_emergency_alert (alert_history : List EmergencyAlert)
    (twilio_config : Option TwilioConfig)
    (sms_result voice_result : Bool × String)
    (patient_data : PatientData) (urgency_level : UrgencyLevel)
    (user_notes : String) (phone_number : String)
    (alert_id : String) (clock : Clock) :
    SendResult × List EmergencyAlert × List ChannelUse :=
  match twilio_config with
  | none =>
    ({ success := false, status := "Twilio configuration not found", alert := none },
     alert_history, [])
  | some _ =>
    let sms_message := _format_emergency_message patient_data urgency_level user_notes clock
    let alert : EmergencyAlert :=
      { alert_id := alert_id
        patient_case_id := patient_data.case_id.getD ("CASE_" ++ clock.ymdhms)
        urgency_level := urgency_level
        message_content := sms_message
        recipient_phone := phone_number
        delivery_status :=
          if sms_result.1 then DeliveryStatus.sent else DeliveryStatus.failed
        message_sid := if sms_result.1 then some sms_result.2 else none
        call_sid := if voice_result.1 then some voice_result.2 else none
        user_notes := user_notes
        patient_context := patient_data }
    let history := alert_history ++ [alert]
    let uses := [ChannelUse.sms, ChannelUse.voice]
    if sms_result.1 && voice_result.1 then
      ({ success := true, status := "✅ Emergency alert sent successfully! ",
         alert := some alert }, history, uses)
    else if sms_result.1 then
      ({ success := true, status := "⚠️ SMS sent successfully",
         alert := some alert }, history, uses)
    else if voice_result.1 then
      ({ success := true, status := "⚠️ Voice call initiated successfully",
         alert := some alert }, history, uses)
    else
      ({ success := false, status := "❌ Both SMS and voice call failed",
         alert := some alert }, history, uses)

/-- `EmergencyAlertService.test_sms_configuration`: a text-only probe.
Same modelling as `send_emergency_alert`; only the SMS oracle exists
because the code never calls `_make_voice_call` here, and the ledger is
returned untouched because the code never appends to
`self.alert_history` on this path. -/
def test_sms_configuration (alert_history : List EmergencyAlert)
    (twilio_config : Option TwilioConfig)
    (sms_result : Bool × String) :
    (Bool × String) × List EmergencyAlert × List ChannelUse :=
  match twilio_config with
  | none => ((false, "Twilio configuration not found"), alert_history, [])
  | some _ =>
    if sms_result.1 then
      ((true, " Test SMS sent successfully! "), alert_history, [ChannelUse.sms])
    else
      ((false, "❌ Test SMS failed: " ++ sms_result.2), alert_history, [ChannelUse.sms])

/-- `isPrefixChars pat l`: the character list `pat` is a prefix of `l`. -/
def isPrefixChars : List Char → List Char → Bool
  | [], _ => true
  | _ :: _, [] => false
  | a :: as, b :: bs => a == b && isPrefixChars as bs

/-- `hasSubChars pat l`: `pat` occurs contiguously inside `l`. -/
def hasSubChars (pat : List Char) : List Char → Bool
  | [] => isPrefixChars pat []
  | c :: cs => isPrefixChars pat (c :: cs) || hasSubChars pat cs

/-- A substring test used to formalise "the status message mentions ...". -/
def mentions (s pat : String) : Bool :=
  hasSubChars pat.toList s.toList

/-- A patient context with every key absent. -/
def pdEmpty : PatientData :=
  { age := none, gender := none, case_id := none, seizures := none,
    cardiac_abnormalities := none, respiratory_issues := none,
    developmental_delay := none, intellectual_disability := none,
    failure_to_thrive := none }

/-- A small concrete patient context used by witnesses. -/
def pd0 : PatientData :=
  { pdEmpty with
    age := some "45"
    gender := some 1
    case_id := some "CASE_001"
    seizures := some 1 }

/-- A concrete clock rendering. -/
def clock0 : Clock :=
  { hm := "12:34", hms := "123456", ymdhms := "20261012_123456" }

/-- A concrete resolved credential record. -/
def cfg0 : TwilioConfig :=
  { account_sid := "AC123", auth_token := "secret456",
    from_phone_number := "+15550001111", is_configured := true }

/-- The empty persisted configuration file. -/
def emptyConfig : ConfigFile := { twilio := none, emergency_contacts := [] }

/-- A decryption oracle that always fails, modelling a Fernet cipher
whose key does not match the stored ciphertext. -/
def decryptFail : String → Option String := fun _ => none

/-- A persisted configuration whose `twilio` block is flagged configured
but whose stored ciphertext does not decrypt under the current key. -/
def cfgCorrupt : ConfigFile :=
  { twilio := some
      { account_sid := "AC123"
        auth_token := "corrupted-ciphertext"
        from_phone_number := "+15550001111"
        is_configured := true }
    emergency_contacts := [] }

/-- A 150-character case identifier, a legal value for the schemaless
patient-context mapping. -/
def longCaseId : String := String.mk (List.replicate 150 'X')

example : validate_phone_number "9998887777" = true := by decide
example : validate_phone_number "123" = false := by decide
example : format_phone_number "(999) 888-7777" = "+19998887777" := by decide
example : validate_phone_number "19998887777" = true := by decide
example : validate_phone_number "29998887777" = false := by decide

example :
    _format_emergency_message pd0 UrgencyLevel.high "" clock0 =
      "⚠️ HIGH PRIORITY - NGP Alert | Patient: 45yr Male | Case: CASE_001 | Symptoms: Seizures | Time: 12:34 | Please respond ASAP" := by
  decide

example :
    (_format_emergency_message pdEmpty UrgencyLevel.critical "hello" clock0).length ≤ 160 := by
  decide

example :
    (send_emergency_alert [] (some cfg0) (true, "SM1") (true, "CA1") pd0
      UrgencyLevel.high "" "+15550001111" "EMRG_1" clock0).1.success = true := by
  decide

/-- C1: for every patient context, urgency level, notes string and
recipient, when credentials resolve and the two channel sends return
booleans `(t, v)`, `send_emergency_alert` returns `success = true` iff at
least one of `t`, `v` is true, and `success = false` exactly when both
are false. -/
theorem c1_success_iff_any_channel
    (alert_history : List EmergencyAlert) (cfg : TwilioConfig)
    (sms_result voice_result : Bool × String) (patient_data : PatientData)
    (urgency_level : UrgencyLevel) (user_notes phone_number alert_id : String)
    (clock : Clock) :
    (send_emergency_alert alert_history (some cfg) sms_result voice_result
        patient_data urgency_level user_notes phone_number alert_id clock).1.success =
      (sms_result.1 || voice_result.1) := by
  rcases sms_result with ⟨sb, ss⟩
  rcases voice_result with ⟨vb, vs⟩
  cases sb <;> cases vb <;> simp [send_emergency_alert]

/-- C2: whenever credentials resolve and both dispatches complete,
exactly one `EmergencyAlert` record is appended to the ledger, and when
both channels fail that record has delivery status `failed` while the
call returns `success = false`. -/
theorem c2_ledger_append_and_failure_record
    (alert_history : List EmergencyAlert) (cfg : TwilioConfig)
    (sms_result voice_result : Bool × String) (patient_data : PatientData)
    (urgency_level : UrgencyLevel) (user_notes phone_number alert_id : String)
    (clock : Clock) :
    ∃ a,
      (send_emergency_alert alert_history (some cfg) sms_result voice_result
          patient_data urgency_level user_notes phone_number alert_id clock).2.1 =
        alert_history ++ [a] ∧
      (sms_result.1 = false → voice_result.1 = false →
        a.delivery_status = DeliveryStatus.failed ∧
        (send_emergency_alert alert_history (some cfg) sms_result voice_result
            patient_data urgency_level user_notes phone_number alert_id clock).1.success =
          false) := by
  rcases sms_result with ⟨sb, ss⟩
  rcases voice_result with ⟨vb, vs⟩
  cases sb <;> cases vb <;>
    exact ⟨_, rfl, fun hs hv => by simp_all [send_emergency_alert]⟩

/-- C2 witness: on a concrete both-channels-fail run, the overall result
is `success = false` (while, per the theorem, a `failed` record is still
appended). -/
theorem c2_ledger_append_and_failure_record_witness :
    (send_emergency_alert [] (some cfg0) (false, "e1") (false, "e2") pd0
        UrgencyLevel.critical "" "+15550001111" "EMRG_1" clock0).1.success = false := by
  obtain ⟨a, ha, h⟩ :=
    c2_ledger_append_and_failure_record [] cfg0 (false, "e1") (false, "e2") pd0
      UrgencyLevel.critical "" "+15550001111" "EMRG_1" clock0
  exact (h rfl rfl).2

/-- C3 (code_bug evidence): a patient context whose `case_id` is a legal
150-character string makes `_format_emergency_message` return the
fallback rebuild, and that fallback — which still embeds the arbitrary
`case_id` — is itself longer than 160 characters, so the ≤ 160 bound
fails. -/
theorem c3_fallback_exceeds_limit :
    (_format_emergency_message { pdEmpty with case_id := some longCaseId }
        UrgencyLevel.low "" clock0 =
      String.intercalate " | "
        ["ℹ️ LOW PRIORITY", "Patient: Unknownyr Unknown",
         "Case: " ++ longCaseId, "Time: 12:34", "Check NGP system"]) ∧
    160 < (_format_emergency_message { pdEmpty with case_id := some longCaseId }
        UrgencyLevel.low "" clock0).length := by
  constructor
  · decide
  · decide

/-- C4 (code_bug evidence): `get_twilio_config` returns the very same
silent `none` for a configured-but-undecryptable credential block as for
a never-configured store — the `Option` result carries no distinct error
for the decryption failure. -/
theorem c4_decrypt_failure_indistinguishable :
    get_twilio_config decryptFail cfgCorrupt = none ∧
    get_twilio_config decryptFail emptyConfig = none ∧
    get_twilio_config decryptFail cfgCorrupt =
      get_twilio_config decryptFail emptyConfig :=
  ⟨rfl, rfl, rfl⟩

/-- C5 counterexample: on a concrete text-succeeds/voice-fails run the
call succeeds, but the status string mentions neither "voice" nor
"fail" in any casing — it does not name the failed channel. -/
theorem c5_status_silent_on_failed_channel :
    (send_emergency_alert [] (some cfg0) (true, "SM1") (false, "voice error") pd0
        UrgencyLevel.high "" "+15550001111" "EMRG_1" clock0).1.success = true ∧
    mentions (send_emergency_alert [] (some cfg0) (true, "SM1") (false, "voice error") pd0
        UrgencyLevel.high "" "+15550001111" "EMRG_1" clock0).1.status "voice" = false ∧
    mentions (send_emergency_alert [] (some cfg0) (true, "SM1") (false, "voice error") pd0
        UrgencyLevel.high "" "+15550001111" "EMRG_1" clock0).1.status "Voice" = false ∧
    mentions (send_emergency_alert [] (some cfg0) (true, "SM1") (false, "voice error") pd0
        UrgencyLevel.high "" "+15550001111" "EMRG_1" clock0).1.status "fail" = false ∧
    mentions (send_emergency_alert [] (some cfg0) (true, "SM1") (false, "voice error") pd0
        UrgencyLevel.high "" "+15550001111" "EMRG_1" clock0).1.status "Fail" = false := by
  decide

/-- C5 (amended): in a partial success the status names the channel that
was delivered, not the one that failed: text-only yields
"⚠️ SMS sent successfully", voice-only yields
"⚠️ Voice call initiated successfully". -/
theorem c5_status_names_delivered_channel
    (alert_history : List EmergencyAlert) (cfg : TwilioConfig)
    (sms_result voice_result : Bool × String) (patient_data : PatientData)
    (urgency_level : UrgencyLevel) (user_notes phone_number alert_id : String)
    (clock : Clock) :
    (sms_result.1 = true → voice_result.1 = false →
      (send_emergency_alert alert_history (some cfg) sms_result voice_result
          patient_data urgency_level user_notes phone_number alert_id clock).1.status =
        "⚠️ SMS sent successfully") ∧
    (sms_result.1 = false → voice_result.1 = true →
      (send_emergency_alert alert_history (some cfg) sms_result voice_result
          patient_data urgency_level user_notes phone_number alert_id clock).1.status =
        "⚠️ Voice call initiated successfully") := by
  rcases sms_result with ⟨sb, ss⟩
  rcases voice_result with ⟨vb, vs⟩
  cases sb <;> cases vb <;>
    exact ⟨fun hs hv => by simp_all [send_emergency_alert],
           fun hs hv => by simp_all [send_emergency_alert]⟩

/-- C5 witness: concrete text-only run with the amended status. -/
theorem c5_status_names_delivered_channel_witness :
    (send_emergency_alert [] (some cfg0) (true, "SM1") (false, "err") pd0
        UrgencyLevel.high "" "+15550001111" "EMRG_1" clock0).1.status =
      "⚠️ SMS sent successfully" :=
  (c5_status_names_delivered_channel [] cfg0 (true, "SM1") (false, "err") pd0
      UrgencyLevel.high "" "+15550001111" "EMRG_1" clock0).1 rfl rfl

/-- C6 counterexample: `add_emergency_contact` accepts the bare 10-digit
number "9998887777" but stores it verbatim, although its E.164 form
(produced by `format_phone_number`) is the different string
"+19998887777" — the stored contact's phone is not in E.164 form. -/
theorem c6_stored_phone_not_normalized :
    (add_emergency_contact emptyConfig "Alice" "9998887777" 1).1 = true ∧
    ((add_emergency_contact emptyConfig "Alice" "9998887777" 1).2.emergency_contacts.map
        (fun c => c.phone_number)) = ["9998887777"] ∧
    format_phone_number "9998887777" = "+19998887777" ∧
    "9998887777" ≠ "+19998887777" := by
  decide

/-- C6 (amended): `add_emergency_contact` returns false and leaves the
configuration unchanged when the phone fails validation; otherwise it
assigns the identifier `contact_<n+1>` and appends a contact storing the
phone string exactly as supplied (no E.164 normalization is applied when
storing). -/
theorem c6_add_contact_validates_and_appends_raw
    (config : ConfigFile) (name phone_number : String) (priority : Int) :
    (validate_phone_number phone_number = false →
      add_emergency_contact config name phone_number priority = (false, config)) ∧
    (validate_phone_number phone_number = true →
      (add_emergency_contact config name phone_number priority).1 = true ∧
      (add_emergency_contact config name phone_number priority).2.emergency_contacts =
        config.emergency_contacts ++
          [{ contact_id := "contact_" ++ toString (config.emergency_contacts.length + 1)
             name := name
             phone_number := phone_number
             priority := priority
             is_active := true }]) := by
  constructor
  · intro h
    simp [add_emergency_contact, h]
  · intro h
    simp [add_emergency_contact, h]

/-- C6 witness: concrete invalid phone is rejected with the
configuration unchanged. -/
theorem c6_add_contact_validates_and_appends_raw_witness :
    add_emergency_contact emptyConfig "Bob" "123" 1 = (false, emptyConfig) :=
  (c6_add_contact_validates_and_appends_raw emptyConfig "Bob" "123" 1).1 (by decide)

/-- C7: saving credentials and reading them back returns the same
account id and sender address and the decrypted original secret, for any
cipher pair satisfying the Fernet same-key contract
`decrypt (encrypt s) = some s` — which also covers a fresh process
re-deriving the cipher from the same persisted key artifact. -/
theorem c7_save_get_roundtrip
    (encrypt : String → String) (decrypt : String → Option String)
    (hinv : ∀ s, decrypt (encrypt s) = some s)
    (config : ConfigFile) (account_sid auth_token from_number : String) :
    get_twilio_config decrypt
        (save_twilio_config encrypt config account_sid auth_token from_number).2 =
      some
        { account_sid := account_sid
          auth_token := auth_token
          from_phone_number := from_number
          is_configured := true } := by
  simp [get_twilio_config, save_twilio_config, hinv]

/-- C7 witness: concrete roundtrip with a cipher satisfying the
contract. -/
theorem c7_save_get_roundtrip_witness :
    get_twilio_config (fun s => some s)
        (save_twilio_config (fun s => s) emptyConfig "AC123" "secret456"
          "+15550001111").2 =
      some
        { account_sid := "AC123"
          auth_token := "secret456"
          from_phone_number := "+15550001111"
          is_configured := true } :=
  c7_save_get_roundtrip (fun s => s) (fun s => some s) (fun _ => rfl)
    emptyConfig "AC123" "secret456" "+15550001111"

/-- C8: a bare 10-digit number validates and is formatted by prepending
the fixed domestic code `+1`; an 11-digit number starting with `1`
validates and gets a `+`; every other digit-length shape is rejected;
in particular "123" is rejected and "9998887777" becomes
"+19998887777". -/
theorem c8_phone_normalization_shapes (s : String) :
    ((digitsOnly s).length = 10 →
      validate_phone_number s = true ∧
      format_phone_number s = "+1" ++ digitsOnly s) ∧
    ((digitsOnly s).length = 11 → startsWithOne (digitsOnly s) = true →
      validate_phone_number s = true ∧
      format_phone_number s = "+" ++ digitsOnly s) ∧
    (¬ (digitsOnly s).length = 10 →
      ¬ ((digitsOnly s).length = 11 ∧ startsWithOne (digitsOnly s) = true) →
      validate_phone_number s = false) ∧
    validate_phone_number "123" = false ∧
    format_phone_number "9998887777" = "+19998887777" := by
  refine ⟨?_, ?_, ?_, by decide, by decide⟩
  · intro h
    constructor <;> simp [validate_phone_number, format_phone_number, h]
  · intro h1 h2
    constructor <;> simp [validate_phone_number, format_phone_number, h1, h2]
  · intro h1 h2
    by_cases hl : (digitsOnly s).length = 11
    · have hw : startsWithOne (digitsOnly s) = false := by
        rcases Bool.eq_false_or_eq_true (startsWithOne (digitsOnly s)) with h | h
        · exact absurd ⟨hl, h⟩ h2
        · exact h
      simp [validate_phone_number, h1, hl, hw]
    · simp [validate_phone_number, h1, hl]

/-- C8 witness: the universal shape theorem applied at the spec's own
example "9998887777". -/
theorem c8_phone_normalization_shapes_witness :
    validate_phone_number "9998887777" = true ∧
    format_phone_number "9998887777" = "+1" ++ digitsOnly "9998887777" :=
  (c8_phone_normalization_shapes "9998887777").1 (by decide)

/-- C9: for every ledger, credential state and probe outcome,
`test_sms_configuration` leaves the alert ledger unchanged and never
invokes the voice channel. -/
theorem c9_test_channel_frame
    (alert_history : List EmergencyAlert) (twilio_config : Option TwilioConfig)
    (sms_result : Bool × String) :
    (test_sms_configuration alert_history twilio_config sms_result).2.1 =
      alert_history ∧
    ((test_sms_configuration alert_history twilio_config sms_result).2.2.contains
        ChannelUse.voice) = false := by
  cases twilio_config <;> rcases sms_result with ⟨b, m⟩ <;> cases b <;>
    simp [test_sms_configuration]

/-- C10: the delivery status stored in the appended record is determined
solely by the text-channel outcome — `sent` when the text send
succeeded, `failed` otherwise (even when the voice call succeeded and
the overall call returns `success = true`). -/
theorem c10_record_status_from_text_only
    (alert_history : List EmergencyAlert) (cfg : TwilioConfig)
    (sms_result voice_result : Bool × String) (patient_data : PatientData)
    (urgency_level : UrgencyLevel) (user_notes phone_number alert_id : String)
    (clock : Clock) :
    ∃ a,
      (send_emergency_alert alert_history (some cfg) sms_result voice_result
          patient_data urgency_level user_notes phone_number alert_id clock).2.1 =
        alert_history ++ [a] ∧
      a.delivery_status =
        (if sms_result.1 then DeliveryStatus.sent else DeliveryStatus.failed) ∧
      (send_emergency_alert alert_history (some cfg) sms_result voice_result
          patient_data urgency_level user_notes phone_number alert_id clock).1.success =
        (sms_result.1 || voice_result.1) := by
  rcases sms_result with ⟨sb, ss⟩
  rcases voice_result with ⟨vb, vs⟩
  cases sb <;> cases vb <;>
    exact ⟨_, rfl, by simp [send_emergency_alert], by simp [send_emergency_alert]⟩
